/-
Verification of the area-tile derivation-and-cache pipeline of fanlessfan/hdfm.

The embedding follows the two source files:
  * `src/map_manager.py` (classes `IHeartRadioConfig`, `AreaId`, `Coordinates`,
    `MapManager`) — the structured implementation; and
  * `src/us_map.py` (class `AreaMap`) — the ad-hoc variant, embedded where the
    claims touch it (the projection in `AreaMap.render`).

Python strings are Lean `String`s manipulated through their character lists.
Python exceptions are explicit (`PyExn`), and code that can raise returns an
`Except`/optional-error result; paths that mutate attributes before raising
return the partially mutated state, as the Python objects would keep it.
Raster pixels are delegated to PIL by the program (crop / resize / convert /
save / open); images are modelled by their observable attributes — width,
height, pixel mode — plus a symbolic description of where the pixel content
came from, which is exactly what the cache tiers move around.  The crop-offset
arithmetic itself (transcendental `math.asinh`/`math.tan` on floats, idealised
over `ℝ`) is embedded separately below for the projection claims.
-/
import Mathlib

namespace Hdfm

/-- Python exceptions raised by the embedded code paths.  `exnMalformed` is the
generic `Exception('Coordinates ... are malformed.')` raised by
`Coordinates.parse`. -/
inductive PyExn where
  | indexError
  | keyError
  | valueError
  | typeError
  | attributeError
  | exnMalformed
deriving DecidableEq

/-- Value stored for one key of a parsed iHeartRadio config:
`IHeartRadioConfig._parse_value` returns either a plain string, Python `None`
(when `strip_quotes` falls off the end of the function), or a list whose
elements are strings or `None`. -/
inductive PyVal where
  | str (s : String)
  | pyNone
  | list (xs : List (Option String))
deriving DecidableEq

/-- Python `s[1:-1]`: drop the first and the last character (total, and the
empty string for inputs of length at most 2), as in `Coordinates.parse` and in
`strip_quotes`. -/
def pySlice1m1 (s : String) : String := ⟨(s.toList.drop 1).dropLast⟩

/-- Python `value.split(sep)` on a single-character separator (note
`"".split(',') == ['']`, one empty piece). -/
def splitOnChar (sep : Char) : List Char → List (List Char)
  | [] => [[]]
  | c :: rest =>
    match splitOnChar sep rest with
    | [] => [[c]]
    | g :: gs => if c = sep then [] :: g :: gs else (c :: g) :: gs

/-- `IHeartRadioConfig.strip_quotes` (map_manager.py:19-31).  On the empty
string, `s[0]` raises `IndexError`.  When the first and last characters are a
matching quote pair the slice `s[1:-1]` is returned; otherwise control falls
off the end of the function and Python returns `None` (modelled as
`Except.ok none`). -/
def strip_quotes (s : String) : Except PyExn (Option String) :=
  match s.toList with
  | [] => .error .indexError
  | c :: rest =>
    let l := (c :: rest).getLast (List.cons_ne_nil c rest)
    if (c = '"' ∧ l = '"') ∨ (c = '\'' ∧ l = '\'') then .ok (some (pySlice1m1 s))
    else .ok none

/-- `IHeartRadioConfig._parse_value` (map_manager.py:33-47): split on `';'`
into a quote-stripped list when a semicolon occurs, otherwise quote-strip the
whole value. -/
def parse_value (value : String) : Except PyExn PyVal :=
  if value.toList.contains ';' then
    match (splitOnChar ';' value.toList).mapM (fun part => strip_quotes ⟨part⟩) with
    | .error e => .error e
    | .ok xs => .ok (.list xs)
  else
    match strip_quotes value with
    | .error e => .error e
    | .ok (some t) => .ok (.str t)
    | .ok none => .ok .pyNone

/-- Python's `\w` on the ASCII range (the keys of this format are ASCII). -/
def isWordChar (c : Char) : Bool := c.isAlphanum || c = '_'

/-- Leftmost match of `re.search(r'(\w+)=(.*?)$', line)`: the first `'='`
immediately preceded by a word character; the key is the maximal word-character
run just before it and the value is the remainder of the line. -/
def scanKV : List Char → List Char → Option (String × String)
  | _, [] => none
  | acc, c :: rest =>
    if c = '=' then
      match acc with
      | [] => scanKV [] rest
      | _ :: _ => some (⟨acc.reverse⟩, ⟨rest⟩)
    else if isWordChar c then scanKV (c :: acc) rest
    else scanKV [] rest

/-- Lookup in the parsed config (`config[key]`, returning `none` where Python
raises `KeyError`). -/
def lookupKV (cfg : List (String × PyVal)) (k : String) : Option PyVal :=
  match cfg.find? (fun e => e.1 == k) with
  | some e => some e.2
  | none => none

/-- Python dict assignment `result[key] = val`: overwrite in place if the key
is present, else append (insertion order preserved). -/
def insertKV (cfg : List (String × PyVal)) (k : String) (v : PyVal) :
    List (String × PyVal) :=
  if cfg.any (fun e => e.1 == k) then
    cfg.map (fun e => if e.1 == k then (k, v) else e)
  else cfg ++ [(k, v)]

/-- `IHeartRadioConfig.load` (map_manager.py:49-69): per line, record the
`key=value` match if any (non-matching lines are skipped); `_parse_value` may
raise (`IndexError` via `strip_quotes` on an empty value), which propagates.
Lines are split on newline characters. -/
def load (text : String) : Except PyExn (List (String × PyVal)) :=
  (splitOnChar '\n' text.toList).foldlM
    (fun res line =>
      match scanKV [] line with
      | none => .ok res
      | some kv =>
        match parse_value kv.2 with
        | .error e => .error e
        | .ok pv => .ok (insertKV res kv.1 pv)) []

/-- Digit run to a natural number. -/
def digitsToNat (cs : List Char) : Nat :=
  cs.foldl (fun n c => 10 * n + (c.toNat - 48)) 0

/-- Python `float(s)` on plain decimal notation (optional sign, digits, an
optional single decimal point), the forms this config format carries; the
result is the exact rational it denotes.  Anything else is a parse failure
(`ValueError`).  (CPython also accepts exponents, `inf`/`nan` and surrounding
whitespace; no claim depends on those forms.) -/
def pyFloat (s : String) : Option ℚ :=
  let p : ℚ × List Char :=
    match s.toList with
    | '+' :: r => (1, r)
    | '-' :: r => (-1, r)
    | r => (1, r)
  match splitOnChar '.' p.2 with
  | [ip] =>
    if ip ≠ [] ∧ ip.all Char.isDigit then some (p.1 * digitsToNat ip) else none
  | [ip, fp] =>
    if (ip ≠ [] ∨ fp ≠ []) ∧ ip.all Char.isDigit ∧ fp.all Char.isDigit then
      some (p.1 * ((digitsToNat ip : ℚ) + (digitsToNat fp : ℚ) / (10 ^ fp.length)))
    else none
  | _ => none

/-- The bounding box held by `Coordinates.value`:
`((lat_top, lon_left), (lat_bottom, lon_right))`. -/
abbrev Coords := (ℚ × ℚ) × (ℚ × ℚ)

/-- `Coordinates.parse` (map_manager.py:105-112).  `len(value) != 2` raises the
malformed-coordinates `Exception`; a `None` operand of `len`/slicing raises
`TypeError`; a comma split that does not unpack into exactly two names raises
`ValueError`; `float()` on a non-numeric component raises `ValueError`.  A
string value of length 2 always fails at the unpack (each `value[i]` is a
single character, so `value[i][1:-1]` is empty and splits into one piece). -/
def coordParse : PyVal → Except PyExn Coords
  | .pyNone => .error .typeError
  | .str s =>
    if s.toList.length ≠ 2 then .error .exnMalformed
    else .error .valueError
  | .list xs =>
    match xs with
    | [a?, b?] =>
      match a? with
      | none => .error .typeError
      | some a =>
        match splitOnChar ',' (pySlice1m1 a).toList with
        | [t1, n1] =>
          match b? with
          | none => .error .typeError
          | some b =>
            match splitOnChar ',' (pySlice1m1 b).toList with
            | [t2, n2] =>
              match pyFloat ⟨t1⟩, pyFloat ⟨n1⟩, pyFloat ⟨t2⟩, pyFloat ⟨n2⟩ with
              | some latT, some lonL, some latB, some lonR =>
                .ok ((latT, lonL), (latB, lonR))
              | _, _, _, _ => .error .valueError
            | _ => .error .valueError
        | _ => .error .valueError
    | _ => .error .exnMalformed

/-- `AreaId.key` (map_manager.py:98). -/
def areaIdKey : String := "DWR_Area_ID"

/-- `Coordinates.key` (map_manager.py:102). -/
def coordinatesKey : String := "Coordinates"

/-- Where an image's pixel content came from.  The pixel work itself
(crop/resize/convert/save/open) is PIL's, an external collaborator of this
program; the cache tiers only move the resulting images around, so content is
tracked symbolically: a file outside the cache, or the crop-and-resize of the
main US map for a bounding box (`MapManager.create_map`, whose integer crop
offsets are embedded separately as `createMapOffsets`), or the crop-and-resize
performed by `AreaMap.render` for an explicit offset box. -/
inductive Content where
  | fromFile (path : String)
  | computedCrop (c : Coords)
  | amRender (box : ℤ × ℤ × ℤ × ℤ)
deriving DecidableEq

/-- A PIL image as the program observes it: dimensions, pixel mode, pixel
content.  `convert` yields an image with the same pixel content in the new
mode; saving an image to PNG and re-opening it restores these attributes. -/
structure Img where
  width : Nat
  height : Nat
  mode : String
  content : Content
deriving DecidableEq

/-- `Image.convert(mode)`: same pixels, new mode. -/
def Img.convert (im : Img) (m : String) : Img := { im with mode := m }

/-- Python `str()` of a config value, as interpolated into the cache file name
(`f'map_{self.area_id.value}.png'`). -/
def pyOptRepr : Option String → String
  | some s => "'" ++ s ++ "'"
  | none => "None"

/-- Python `str()` of a `PyVal` (a list renders via element reprs). -/
def pyValStr : PyVal → String
  | .str s => s
  | .pyNone => "None"
  | .list xs => "[" ++ String.intercalate ", " (xs.map pyOptRepr) ++ "]"

/-- `MapManager.map_cache_file` (map_manager.py:167-172), given the current
`area_id` value; the name is a pure function of that value. -/
def mapCacheFile (aid : PyVal) : String := "map_" ++ pyValStr aid ++ ".png"

/-- `MapManager` state (map_manager.py:143-165) together with the cache
directory contents it manipulates: `memTile` is the `_map` attribute, `disk`
the cache directory as an association list from file name to stored image. -/
structure MMState where
  area_id : Option PyVal
  coordinates : Option Coords
  memTile : Option Img
  disk : List (String × Img)
deriving DecidableEq

/-- `MapManager.__init__` with an empty cache directory. -/
def initMM : MMState :=
  { area_id := none, coordinates := none, memTile := none, disk := [] }

/-- `path.exists()` / `Image.open(path)` on the cache directory. -/
def diskLookup (d : List (String × Img)) (p : String) : Option Img :=
  match d.find? (fun e => e.1 == p) with
  | some e => some e.2
  | none => none

/-- `path.unlink()`. -/
def diskErase (d : List (String × Img)) (p : String) : List (String × Img) :=
  d.filter (fun e => !(e.1 == p))

/-- `image.save(path)`: the file at `p` now holds exactly `v`. -/
def diskSave (d : List (String × Img)) (p : String) (v : Img) :
    List (String × Img) :=
  diskErase d p ++ [(p, v)]

/-- `MapManager.create_map` (map_manager.py:223-248): crop the main map at the
projected box for the current coordinates, `resize((900, 900))`, and
`convert('RGBA')` — so whatever the box, the result is a 900×900 RGBA image
whose pixels are the cropped region for exactly those coordinates. -/
def createMap (c : Coords) : Img :=
  { width := 900, height := 900, mode := "RGBA", content := .computedCrop c }

/-- The `map` property setter (map_manager.py:271-283): set `_map`, then —
via `map_cache_file`, which raises `AttributeError` when no config is loaded,
with `_map` already reassigned — delete the cache file if it exists and save
the new value there. -/
def mapSet (s : MMState) (v : Img) : MMState × Option PyExn :=
  let s1 : MMState := { s with memTile := some v }
  match s1.area_id with
  | none => (s1, some .attributeError)
  | some aid =>
    let p := mapCacheFile aid
    let d1 := if (diskLookup s1.disk p).isSome then diskErase s1.disk p else s1.disk
    ({ s1 with disk := diskSave d1 p v }, none)

/-- The `map` property getter (map_manager.py:250-269): memory tier, then disk
tier (open, assign through the setter, return the `RGBA`-converted copy), then
compute (`create_map`, assign through the setter, return it).  With no config
loaded, `map_cache_file` (disk tier) or `create_map`'s `self.coordinates`
access raises `AttributeError` before anything is mutated. -/
def getMap (s : MMState) : MMState × Except PyExn Img :=
  match s.memTile with
  | some t => (s, .ok t)
  | none =>
    match s.area_id with
    | none => (s, .error .attributeError)
    | some aid =>
      match diskLookup s.disk (mapCacheFile aid) with
      | some img => ((mapSet s img).1, .ok (img.convert "RGBA"))
      | none =>
        match s.coordinates with
        | none => (s, .error .attributeError)
        | some c =>
          let img := createMap c
          ((mapSet s img).1, .ok img)

/-- `MapManager.reload_config` (map_manager.py:181-193): parse the text, then
assign `area_id`, then `coordinates`, then clear `_map`.  A failure at any step
raises there, keeping every assignment already made — in particular a missing
or malformed coordinates entry leaves the new `area_id` with the old
`coordinates` and the old `_map`. -/
def reloadConfig (s : MMState) (text : String) : MMState × Option PyExn :=
  match load text with
  | .error e => (s, some e)
  | .ok cfg =>
    match lookupKV cfg areaIdKey with
    | none => (s, some .keyError)
    | some aidVal =>
      let s1 : MMState := { s with area_id := some aidVal }
      match lookupKV cfg coordinatesKey with
      | none => (s1, some .keyError)
      | some cv =>
        match coordParse cv with
        | .error e => (s1, some e)
        | .ok coords =>
          ({ s1 with coordinates := some coords, memTile := none }, none)

/-! Sample data used by witnesses: a well-formed tile, a bounding box, and a
few concrete manager states. -/

/-- A sample 900×900 RGBA tile. -/
def tile0 : Img :=
  { width := 900, height := 900, mode := "RGBA", content := .fromFile "t0" }

/-- The continental-US bounding box of spec §8. -/
def usBox : Coords := ((49, -125), (24, -66))

/-- A configured manager whose memory slot already holds a tile. -/
def mmReady : MMState :=
  { area_id := some (.str "US"), coordinates := some usBox,
    memTile := some tile0, disk := [] }

/-- A configured manager with a cold cache (no memory tile, no disk entry). -/
def mmCold : MMState :=
  { area_id := some (.str "US"), coordinates := some usBox,
    memTile := none, disk := [] }

/-- A configured manager holding an old descriptor and an old memory tile. -/
def mmOld : MMState :=
  { area_id := some (.str "OLD"), coordinates := some usBox,
    memTile := some tile0, disk := [] }

/-! Helper lemmas about the disk model. -/

/-- After a save, the saved path holds exactly the saved image. -/
theorem diskLookup_save (d : List (String × Img)) (p : String) (v : Img) :
    diskLookup (diskSave d p v) p = some v := by
  unfold diskLookup diskSave diskErase
  rw [List.find?_append]
  have h : (d.filter (fun e => !(e.1 == p))).find? (fun e => e.1 == p) = none := by
    rw [List.find?_eq_none]
    intro e he
    have hmem := List.of_mem_filter he
    simpa using hmem
  rw [h]
  simp

/-- Filtering away the entries for path `p` does not change the first match
for a different path `q`. -/
theorem find?_filter_ne (p q : String) (hne : q ≠ p) :
    ∀ d : List (String × Img),
      (d.filter (fun e => !(e.1 == p))).find? (fun e => e.1 == q) =
        d.find? (fun e => e.1 == q)
  | [] => by simp
  | e :: rest => by
    rcases eq_or_ne e.1 p with hp | hp
    · have hbp : (e.1 == p) = true := beq_iff_eq.mpr hp
      have hbq : (e.1 == q) = false :=
        beq_eq_false_iff_ne.mpr (fun h => hne (h ▸ hp))
      rw [List.filter_cons, hbp]
      simp only [Bool.not_true, Bool.false_eq_true, if_false]
      rw [find?_filter_ne p q hne rest, List.find?_cons, hbq]
    · have hbp : (e.1 == p) = false := beq_eq_false_iff_ne.mpr hp
      rw [List.filter_cons, hbp]
      simp only [Bool.not_false, if_true]
      rw [List.find?_cons, List.find?_cons]
      cases hq : (e.1 == q) with
      | false => exact find?_filter_ne p q hne rest
      | true => rfl

/-- A save leaves every other path's entry unchanged. -/
theorem diskLookup_save_ne (d : List (String × Img)) (p q : String) (v : Img)
    (hne : q ≠ p) : diskLookup (diskSave d p v) q = diskLookup d q := by
  unfold diskLookup diskSave diskErase
  rw [List.find?_append, find?_filter_ne p q hne d]
  have h2 : List.find? (fun e => e.1 == q) [(p, v)] = none := by
    have hb : (p == q) = false := beq_eq_false_iff_ne.mpr (fun h => hne h.symm)
    simp [List.find?, hb]
  rw [h2, Option.or_none]

/-- An erase leaves every other path's entry unchanged. -/
theorem diskLookup_erase_ne (d : List (String × Img)) (p q : String)
    (hne : q ≠ p) : diskLookup (diskErase d p) q = diskLookup d q := by
  unfold diskLookup diskErase
  rw [find?_filter_ne p q hne d]

/-- Wrapping a string in parentheses and re-slicing `[1:-1]` recovers it: the
slice in `Coordinates.parse` removes exactly one leading and one trailing
character, whatever they are. -/
theorem pySlice1m1_wrap (t : String) : pySlice1m1 ("(" ++ t ++ ")") = t := by
  obtain ⟨l⟩ := t
  have hdata : ("(" ++ String.mk l ++ ")").toList = '(' :: (l ++ [')']) := by
    show (("(" ++ String.mk l ++ ")").data) = '(' :: (l ++ [')'])
    rw [String.data_append, String.data_append]
    rfl
  unfold pySlice1m1
  rw [hdata]
  simp [List.dropLast_concat]

/-- C6 (code bug): `strip_quotes` has no fallthrough return, so a non-empty
value that is not wrapped in a matching quote pair is recorded as Python
`None` instead of unchanged — contradicting the function's own docstring
("Returns: Quote-stripped string"), and the spec §4.1, which describe
quote-stripping as removing at most one wrapping quote layer.  Evaluations:
the unquoted value `abc` is lost to `None`; quoted values and
semicolon-separated quoted sub-values behave as the claim says. -/
theorem strip_quotes_unquoted_value_lost :
    strip_quotes "abc" = .ok none ∧
    parse_value "abc" = .ok .pyNone ∧
    parse_value "\"abc\"" = .ok (.str "abc") ∧
    parse_value "\"(40.5,-75.1)\";\"(39.5,-74.1)\"" =
      .ok (.list [some "(40.5,-75.1)", some "(39.5,-74.1)"]) :=
  ⟨rfl, rfl, rfl, rfl⟩

/-- C10: `Coordinates.parse` removes exactly the first and last character of
each of the two segments unconditionally — it never checks that they are
brackets — so parsing behaves as if every segment were bracket-wrapped
(first conjunct), and a segment without brackets silently loses its leading
digit/sign and trailing digit instead of raising: `40.5,-75.1` and
`39.5,-74.1` parse "successfully" as `((0.5, -75), (9.5, -74))` (second
conjunct). -/
theorem coordParse_strips_first_last_unconditionally :
    (∀ a b : String,
      coordParse (.list [some a, some b]) =
        coordParse (.list [some ("(" ++ pySlice1m1 a ++ ")"),
                           some ("(" ++ pySlice1m1 b ++ ")")])) ∧
    coordParse (.list [some "40.5,-75.1", some "39.5,-74.1"]) =
      .ok ((1 / 2, -75), (19 / 2, -74)) := by
  constructor
  · intro a b
    simp only [coordParse]
    rw [pySlice1m1_wrap (pySlice1m1 a), pySlice1m1_wrap (pySlice1m1 b)]
  · have h : coordParse (.list [some "40.5,-75.1", some "39.5,-74.1"]) =
        .ok ((1 * (((0 : ℕ) : ℚ) + ((5 : ℕ) : ℚ) / 10 ^ (1 : ℕ)),
              -1 * (((75 : ℕ) : ℚ) + ((0 : ℕ) : ℚ) / 10 ^ (0 : ℕ))),
             (1 * (((9 : ℕ) : ℚ) + ((5 : ℕ) : ℚ) / 10 ^ (1 : ℕ)),
              -1 * (((74 : ℕ) : ℚ) + ((0 : ℕ) : ℚ) / 10 ^ (0 : ℕ)))) := rfl
    rw [h]
    norm_num

/-- C2: whenever the in-process tile slot is set through the `map` setter on a
configured manager, the setter succeeds, the memory slot holds the new tile,
and the disk entry named by the current `area_id` is (deleted if present and)
rewritten to hold exactly that tile; the descriptor fields are untouched and
no other disk entry changes. -/
theorem mapSet_syncs_disk (s : MMState) (v : Img) (aid : PyVal)
    (hA : s.area_id = some aid) :
    (mapSet s v).2 = none ∧
    (mapSet s v).1.memTile = some v ∧
    diskLookup (mapSet s v).1.disk (mapCacheFile aid) = some v ∧
    (mapSet s v).1.area_id = s.area_id ∧
    (mapSet s v).1.coordinates = s.coordinates ∧
    (∀ q, q ≠ mapCacheFile aid →
      diskLookup (mapSet s v).1.disk q = diskLookup s.disk q) := by
  unfold mapSet
  rw [hA]
  refine ⟨rfl, rfl, diskLookup_save _ _ _, rfl, rfl, ?_⟩
  intro q hq
  by_cases hex : (diskLookup s.disk (mapCacheFile aid)).isSome
  · simp only [hex, if_true]
    rw [diskLookup_save_ne _ _ _ _ hq, diskLookup_erase_ne _ _ _ hq]
  · simp only [hex, Bool.false_eq_true, if_false]
    rw [diskLookup_save_ne _ _ _ _ hq]

/-- Witness for C2 at a concrete configured state and tile. -/
theorem mapSet_syncs_disk_witness :
    diskLookup (mapSet mmReady tile0).1.disk (mapCacheFile (.str "US")) =
      some tile0 ∧ (mapSet mmReady tile0).1.memTile = some tile0 :=
  ⟨(mapSet_syncs_disk mmReady tile0 (.str "US") rfl).2.2.1,
   (mapSet_syncs_disk mmReady tile0 (.str "US") rfl).2.1⟩

/-- C9: on a manager in which no descriptor has ever been ingested (fresh
state: `area_id` and `coordinates` are `None` and the memory slot is empty,
as after `__init__`), requesting the map fails — `map_cache_file` dereferences
`self.area_id.value` on `None` and raises (`AttributeError`, the failure the
spec taxonomy names `NotConfigured`) — and the state, memory slot and disk
included, is returned untouched. -/
theorem getMap_unconfigured (s : MMState)
    (hA : s.area_id = none) (hC : s.coordinates = none)
    (hM : s.memTile = none) :
    getMap s = (s, .error .attributeError) := by
  unfold getMap
  rw [hM, hA]

/-- Witness for C9 at the freshly constructed manager. -/
theorem getMap_unconfigured_witness :
    getMap initMM = (initMM, .error .attributeError) :=
  getMap_unconfigured initMM rfl rfl rfl

/-- Closed form of the `map` setter on a configured manager. -/
theorem mapSet_eq (s : MMState) (v : Img) (aid : PyVal)
    (hA : s.area_id = some aid) :
    mapSet s v =
      ({ s with
          memTile := some v
          disk := diskSave
            (if (diskLookup s.disk (mapCacheFile aid)).isSome
             then diskErase s.disk (mapCacheFile aid) else s.disk)
            (mapCacheFile aid) v }, none) := by
  obtain ⟨a0, c0, m0, d0⟩ := s
  change a0 = some aid at hA
  subst hA
  rfl

/-- C3: a successful `reload_config` replaces the descriptor with the one
parsed from the text and clears the memory tile; and `reload_config` never
touches the disk cache, on success or failure — no entry for the old or the
new area id is created, deleted, or modified. -/
theorem reloadConfig_replaces_descriptor_keeps_disk (s : MMState)
    (text : String) :
    ((reloadConfig s text).1.disk = s.disk) ∧
    (∀ s', reloadConfig s text = (s', none) →
      s'.memTile = none ∧
      ∃ cfg aidVal cv coords, load text = .ok cfg ∧
        lookupKV cfg areaIdKey = some aidVal ∧
        lookupKV cfg coordinatesKey = some cv ∧
        coordParse cv = .ok coords ∧
        s'.area_id = some aidVal ∧ s'.coordinates = some coords) := by
  constructor
  · unfold reloadConfig
    split
    · rfl
    · split
      · rfl
      · split
        · rfl
        · split
          · rfl
          · rfl
  · intro s' h
    unfold reloadConfig at h
    split at h
    · exact absurd (congrArg Prod.snd h) (by simp)
    · split at h
      · exact absurd (congrArg Prod.snd h) (by simp)
      · split at h
        · exact absurd (congrArg Prod.snd h) (by simp)
        · split at h
          · exact absurd (congrArg Prod.snd h) (by simp)
          · injection h with h1 h2
            subst h1
            exact ⟨rfl, _, _, _, _, by assumption, by assumption,
              by assumption, by assumption, rfl, rfl⟩

/-- Witness for C3 on the spec §8 config text from the fresh manager. -/
theorem reloadConfig_replaces_descriptor_keeps_disk_witness :
    ((reloadConfig initMM
        "DWR_Area_ID=\"ABC123\"\nCoordinates=\"(40.5,-75.1)\";\"(39.5,-74.1)\"").1.disk
      = initMM.disk) ∧
    (reloadConfig initMM
        "DWR_Area_ID=\"ABC123\"\nCoordinates=\"(40.5,-75.1)\";\"(39.5,-74.1)\"").1.memTile
      = none :=
  ⟨(reloadConfig_replaces_descriptor_keeps_disk initMM _).1,
   ((reloadConfig_replaces_descriptor_keeps_disk initMM
      "DWR_Area_ID=\"ABC123\"\nCoordinates=\"(40.5,-75.1)\";\"(39.5,-74.1)\"").2
      (reloadConfig initMM
        "DWR_Area_ID=\"ABC123\"\nCoordinates=\"(40.5,-75.1)\";\"(39.5,-74.1)\"").1
      rfl).1⟩

/-- C4 counterexample: ingestion is not all-or-nothing.  On a manager holding
descriptor `OLD` and a memory tile, ingesting a config text that carries the
area-id key but no coordinates key fails (`KeyError`), yet the resulting state
has `area_id = NEW` next to the old coordinates and the old memory tile — a
partial update, so the state is not "exactly as it was". -/
theorem reloadConfig_not_atomic_cex :
    (reloadConfig mmOld "DWR_Area_ID=\"NEW\"").2 = some PyExn.keyError ∧
    (reloadConfig mmOld "DWR_Area_ID=\"NEW\"").1.area_id =
      some (.str "NEW") ∧
    (reloadConfig mmOld "DWR_Area_ID=\"NEW\"").1.coordinates = some usBox ∧
    (reloadConfig mmOld "DWR_Area_ID=\"NEW\"").1.memTile = some tile0 ∧
    (reloadConfig mmOld "DWR_Area_ID=\"NEW\"").1 ≠ mmOld := by
  refine ⟨rfl, rfl, rfl, rfl, fun h => ?_⟩
  exact absurd (congrArg MMState.area_id h) (by decide)

/-- C4 amended: a failed ingestion leaves `coordinates`, the memory tile and
the disk exactly as they were, but not necessarily `area_id`: a failure at or
after the coordinates lookup happens with `area_id` already replaced by the
newly parsed value (only a failure at load time or at the area-id lookup
leaves the whole state unchanged). -/
theorem reloadConfig_failed_ingestion_effect (s : MMState) (text : String)
    (s' : MMState) (e : PyExn) (h : reloadConfig s text = (s', some e)) :
    s'.coordinates = s.coordinates ∧ s'.memTile = s.memTile ∧
    s'.disk = s.disk ∧
    (s'.area_id = s.area_id ∨
      ∃ cfg v, load text = .ok cfg ∧ lookupKV cfg areaIdKey = some v ∧
        s'.area_id = some v) := by
  unfold reloadConfig at h
  split at h
  · injection h with h1 h2
    subst h1
    exact ⟨rfl, rfl, rfl, Or.inl rfl⟩
  · split at h
    · injection h with h1 h2
      subst h1
      exact ⟨rfl, rfl, rfl, Or.inl rfl⟩
    · split at h
      · injection h with h1 h2
        subst h1
        exact ⟨rfl, rfl, rfl, Or.inr ⟨_, _, by assumption, by assumption, rfl⟩⟩
      · split at h
        · injection h with h1 h2
          subst h1
          exact ⟨rfl, rfl, rfl, Or.inr ⟨_, _, by assumption, by assumption, rfl⟩⟩
        · exact absurd (congrArg Prod.snd h) (by simp)

/-- Witness for the amended C4 at the concrete failing ingestion. -/
theorem reloadConfig_failed_ingestion_effect_witness :
    (reloadConfig mmOld "DWR_Area_ID=\"NEW\"").1.coordinates =
      mmOld.coordinates ∧
    (reloadConfig mmOld "DWR_Area_ID=\"NEW\"").1.disk = mmOld.disk :=
  ⟨(reloadConfig_failed_ingestion_effect mmOld "DWR_Area_ID=\"NEW\""
      (reloadConfig mmOld "DWR_Area_ID=\"NEW\"").1 PyExn.keyError rfl).1,
   (reloadConfig_failed_ingestion_effect mmOld "DWR_Area_ID=\"NEW\""
      (reloadConfig mmOld "DWR_Area_ID=\"NEW\"").1 PyExn.keyError rfl).2.2.1⟩

/-- C1: on a configured manager whose disk cache holds only tiles in the RGBA
mode this program itself writes, requesting the map twice in a row returns the
same tile both times; after the first call the memory slot holds that tile, so
the second call short-circuits at the memory tier and returns with the state
— disk entries included — exactly as the first call left it. -/
theorem getMap_idempotent (s : MMState) (aid : PyVal) (c : Coords)
    (hA : s.area_id = some aid) (hC : s.coordinates = some c)
    (hD : ∀ p img, diskLookup s.disk p = some img → img.mode = "RGBA") :
    ∃ t s', getMap s = (s', .ok t) ∧ s'.memTile = some t ∧
      getMap s' = (s', .ok t) := by
  cases hM : s.memTile with
  | some t =>
    refine ⟨t, s, ?_, hM, ?_⟩ <;> (unfold getMap; rw [hM])
  | none =>
    unfold getMap
    rw [hM, hA]
    dsimp only
    cases hDk : diskLookup s.disk (mapCacheFile aid) with
    | some img =>
      have hmode : img.mode = "RGBA" := hD _ _ hDk
      have hconv : img.convert "RGBA" = img := by
        obtain ⟨w, ht, m, ct⟩ := img
        change m = "RGBA" at hmode
        rw [hmode]
        rfl
      have hmem : (mapSet s img).1.memTile = some img := by
        rw [mapSet_eq s img aid hA]
      refine ⟨img.convert "RGBA", (mapSet s img).1, rfl, ?_, ?_⟩
      · rw [hconv]; exact hmem
      · rw [hconv, hmem]
    | none =>
      rw [hC]
      dsimp only
      have hmem : (mapSet s (createMap c)).1.memTile = some (createMap c) := by
        rw [mapSet_eq s (createMap c) aid hA]
      refine ⟨createMap c, (mapSet s (createMap c)).1, rfl, hmem, ?_⟩
      rw [hmem]

/-- Witness for C1 at a configured state whose memory slot holds a tile. -/
theorem getMap_idempotent_witness :
    ∃ t s', getMap mmReady = (s', .ok t) ∧ s'.memTile = some t ∧
      getMap s' = (s', .ok t) :=
  getMap_idempotent mmReady (.str "US") usBox rfl rfl
    (fun p img h => by simp [diskLookup, mmReady] at h)

/-- C7: every tile `get_tile` returns is 900×900 and in the alpha-carrying
RGBA mode, whatever the bounding box: a freshly computed tile is
`resize((900,900)).convert('RGBA')` of the crop; a disk-loaded tile is
returned `convert('RGBA')`-ed and keeps the stored dimensions; a memory-tier
tile was stored by one of those paths.  The hypotheses say the cache holds
only tiles this program's own paths write (900×900 RGBA), which is how any
state reachable from a fresh cache looks. -/
theorem getMap_tile_shape (s : MMState) (t : Img) (s' : MMState)
    (hmem : ∀ u, s.memTile = some u →
      u.width = 900 ∧ u.height = 900 ∧ u.mode = "RGBA")
    (hdisk : ∀ p u, diskLookup s.disk p = some u →
      u.width = 900 ∧ u.height = 900 ∧ u.mode = "RGBA")
    (h : getMap s = (s', .ok t)) :
    t.width = 900 ∧ t.height = 900 ∧ t.mode = "RGBA" := by
  unfold getMap at h
  cases hM : s.memTile with
  | some u =>
    rw [hM] at h
    dsimp only at h
    injection h with h1 h2
    injection h2 with h3
    subst h3
    exact hmem u hM
  | none =>
    rw [hM] at h
    dsimp only at h
    cases hA : s.area_id with
    | none =>
      rw [hA] at h
      dsimp only at h
      injection h with h1 h2
      cases h2
    | some aid =>
      rw [hA] at h
      dsimp only at h
      cases hDk : diskLookup s.disk (mapCacheFile aid) with
      | some img =>
        rw [hDk] at h
        dsimp only at h
        injection h with h1 h2
        injection h2 with h3
        subst h3
        have hi := hdisk _ _ hDk
        exact ⟨hi.1, hi.2.1, rfl⟩
      | none =>
        rw [hDk] at h
        dsimp only at h
        cases hC : s.coordinates with
        | none =>
          rw [hC] at h
          dsimp only at h
          injection h with h1 h2
          cases h2
        | some c =>
          rw [hC] at h
          dsimp only at h
          injection h with h1 h2
          injection h2 with h3
          subst h3
          exact ⟨rfl, rfl, rfl⟩

/-- Witness for C7 on the cold-cache compute path. -/
theorem getMap_tile_shape_witness :
    (createMap usBox).width = 900 ∧ (createMap usBox).height = 900 ∧
      (createMap usBox).mode = "RGBA" :=
  getMap_tile_shape mmCold (createMap usBox) (getMap mmCold).1
    (fun u h => by simp [mmCold] at h)
    (fun p u h => by simp [diskLookup, mmCold] at h)
    rfl

/-- C8: `Coordinates.parse` fails whenever the coordinates value does not have
exactly 2 semicolon-separated segments (a non-list value — one segment — or a
list of length ≠ 2, first conjunct), and whenever a segment's comma split does
not yield exactly a latitude and a longitude (second conjunct); on success the
value was a well-formed 2-segment list and exactly four floats were parsed
(third conjunct).  The wrong-arity path raises the malformed-coordinates
`Exception`, the failed unpack and failed `float()` raise `ValueError`, the
errors the spec's taxonomy calls `MalformedCoordinates`/`MalformedValue`. -/
theorem coordParse_arity_and_success (v : PyVal) (a b : String) :
    ((∀ xs, v = PyVal.list xs → xs.length ≠ 2) →
      ∃ e, coordParse v = .error e) ∧
    ((splitOnChar ',' (pySlice1m1 a).toList).length ≠ 2 ∨
        (splitOnChar ',' (pySlice1m1 b).toList).length ≠ 2 →
      ∃ e, coordParse (.list [some a, some b]) = .error e) ∧
    (∀ r, coordParse v = .ok r →
      ∃ a' b' s1 s2 s3 s4, v = .list [some a', some b'] ∧
        splitOnChar ',' (pySlice1m1 a').toList = [s1, s2] ∧
        splitOnChar ',' (pySlice1m1 b').toList = [s3, s4] ∧
        pyFloat ⟨s1⟩ = some r.1.1 ∧ pyFloat ⟨s2⟩ = some r.1.2 ∧
        pyFloat ⟨s3⟩ = some r.2.1 ∧ pyFloat ⟨s4⟩ = some r.2.2) := by
  refine ⟨?_, ?_, ?_⟩
  · intro hlen
    cases v with
    | pyNone => exact ⟨.typeError, rfl⟩
    | str s =>
      by_cases hl : s.toList.length ≠ 2
      · exact ⟨.exnMalformed, by unfold coordParse; dsimp only; rw [if_pos hl]⟩
      · exact ⟨.valueError, by unfold coordParse; dsimp only; rw [if_neg hl]⟩
    | list xs =>
      have hx := hlen xs rfl
      rcases xs with _ | ⟨x, _ | ⟨y, _ | ⟨z, rest⟩⟩⟩
      · exact ⟨.exnMalformed, rfl⟩
      · exact ⟨.exnMalformed, rfl⟩
      · exact absurd rfl hx
      · exact ⟨.exnMalformed, rfl⟩
  · intro hsplit
    unfold coordParse
    dsimp only
    split
    · rename_i t1 n1 heqA
      split
      · rename_i t2 n2 heqB
        split
        · exfalso
          rcases hsplit with hs | hs
          · exact hs (by rw [heqA]; rfl)
          · exact hs (by rw [heqB]; rfl)
        · exact ⟨.valueError, rfl⟩
      · exact ⟨.valueError, rfl⟩
    · exact ⟨.valueError, rfl⟩
  · intro r h
    cases v with
    | pyNone => exact Except.noConfusion h
    | str s =>
      unfold coordParse at h
      dsimp only at h
      split at h
      · exact Except.noConfusion h
      · exact Except.noConfusion h
    | list xs =>
      unfold coordParse at h
      rcases xs with _ | ⟨aq, _ | ⟨bq, _ | ⟨cq, rest⟩⟩⟩
      · exact Except.noConfusion h
      · exact Except.noConfusion h
      · cases aq with
        | none => exact Except.noConfusion h
        | some a =>
          dsimp only at h
          rcases hta : splitOnChar ',' (pySlice1m1 a).toList with
            _ | ⟨t1, _ | ⟨n1, _ | ⟨t3, r3⟩⟩⟩ <;> rw [hta] at h <;>
            dsimp only at h
          · exact Except.noConfusion h
          · exact Except.noConfusion h
          · cases bq with
            | none => exact Except.noConfusion h
            | some b =>
              dsimp only at h
              rcases htb : splitOnChar ',' (pySlice1m1 b).toList with
                _ | ⟨t2, _ | ⟨n2, _ | ⟨t4, r4⟩⟩⟩ <;> rw [htb] at h <;>
                dsimp only at h
              · exact Except.noConfusion h
              · exact Except.noConfusion h
              · cases hf1 : pyFloat ⟨t1⟩ with
                | none => rw [hf1] at h; exact Except.noConfusion h
                | some q1 =>
                  rw [hf1] at h
                  cases hf2 : pyFloat ⟨n1⟩ with
                  | none => rw [hf2] at h; exact Except.noConfusion h
                  | some q2 =>
                    rw [hf2] at h
                    cases hf3 : pyFloat ⟨t2⟩ with
                    | none => rw [hf3] at h; exact Except.noConfusion h
                    | some q3 =>
                      rw [hf3] at h
                      cases hf4 : pyFloat ⟨n2⟩ with
                      | none => rw [hf4] at h; exact Except.noConfusion h
                      | some q4 =>
                        rw [hf4] at h
                        dsimp only at h
                        injection h with h5
                        subst h5
                        exact ⟨a, b, t1, n1, t2, n2, rfl, hta, htb,
                          hf1, hf2, hf3, hf4⟩
              · exact Except.noConfusion h
          · exact Except.noConfusion h
      · exact Except.noConfusion h

/-- Witness for C8: a 1-segment list and a bad comma split both fail. -/
theorem coordParse_arity_and_success_witness :
    (∃ e, coordParse (.list [some "(1,2)"]) = .error e) ∧
    (∃ e, coordParse (.list [some "(1,2)", some "(3)"]) = .error e) :=
  ⟨(coordParse_arity_and_success (.list [some "(1,2)"]) "" "").1
      (fun xs hxs => by cases hxs; decide),
   (coordParse_arity_and_success (.list [some "(1,2)", some "(3)"])
      "(1,2)" "(3)").2.1 (Or.inr (by decide))⟩

/-! The projection arithmetic.  Python's `math.tan`/`math.asinh` float
computation is idealised over `ℝ` (floats carry no provable kernel
arithmetic); the parsed rational coordinates are cast into `ℝ`.  `int()`
truncates toward zero. -/

noncomputable section

open Real

/-- `MapManager.LAT_MAX` and `AreaMap.LAT_MAX` (identical constants). -/
def LAT_MAX : ℝ := 1.0799224683069641

/-- `MapManager.REF_LAT` and `AreaMap.REF_LAT` (identical constants). -/
def REF_LAT : ℝ := 0.7380009964270406

/-- Python `int()` applied to a float: truncation toward zero. -/
def pyInt (x : ℝ) : ℤ := if 0 ≤ x then ⌊x⌋ else ⌈x⌉

/-- The latitude linearization `LAT_MAX - asinh(tan(radians(val)))`
(`make_linear` in map_manager.py:233-234, and the in-place updates in
us_map.py:59-60); `math.radians(v) = v * π / 180`. -/
def makeLinear (v : ℝ) : ℝ := LAT_MAX - Real.arsinh (Real.tan (v * π / 180))

/-- The x-pixel formula `(lon + 130.781250) * 7162 / 39.34135`
(map_manager.py:239-240, us_map.py:62-63). -/
def xCoord (lon : ℝ) : ℝ := (lon + 130.781250) * 7162 / 39.34135

/-- The y-pixel formula `lin_lat * 3565 / (LAT_MAX - REF_LAT)`
(map_manager.py:242-244, us_map.py:65-67). -/
def yCoord (linLat : ℝ) : ℝ := linLat * 3565 / (LAT_MAX - REF_LAT)

/-- The four integer crop offsets `(int(x1), int(y1), int(x2), int(y2))` that
`MapManager.create_map` hands to `crop` (map_manager.py:236-246).  All the
intermediate linearized values are locals of `create_map`; the result reads
nothing of the manager state but `self.coordinates`, and writes nothing. -/
def createMapOffsets (s : MMState) : Option (ℤ × ℤ × ℤ × ℤ) :=
  s.coordinates.map fun c =>
    (pyInt (xCoord (c.1.2 : ℝ)), pyInt (yCoord (makeLinear (c.1.1 : ℝ))),
     pyInt (xCoord (c.2.2 : ℝ)), pyInt (yCoord (makeLinear (c.2.1 : ℝ))))

/-- `AreaMap` state (us_map.py:19-28) plus the MAPS cache directory it saves
into. -/
structure AMState where
  lat1 : ℝ
  lon1 : ℝ
  lat2 : ℝ
  lon2 : ℝ
  area_id : Option String
  amMap : Option Img
  mapsDir : List (String × Img)

/-- The crop offsets `AreaMap.render` computes from the latitudes and
longitudes stored on the instance at call time (us_map.py:58-74: the `y`
values use the lats after this call's own linearization, which is the same as
linearizing the stored values once). -/
def renderOffsets (s : AMState) : ℤ × ℤ × ℤ × ℤ :=
  (pyInt (xCoord s.lon1), pyInt (yCoord (makeLinear s.lat1)),
   pyInt (xCoord s.lon2), pyInt (yCoord (makeLinear s.lat2)))

/-- Python `str(self.area_id)` + `'.png'` for the MAPS cache file name
(us_map.py:78). -/
def amFileName (a : Option String) : String :=
  (match a with | some s => s | none => "None") ++ ".png"

/-- `AreaMap.render` (us_map.py:55-79): linearize `self.lat1`/`self.lat2` and
STORE THE RESULTS BACK into those attributes, crop the US map at the integer
offsets, resize to 900×900, convert to RGBA, keep the tile in `self.map` and
save it under `<area_id>.png`. -/
def render (s : AMState) : AMState :=
  let tile : Img := { width := 900, height := 900, mode := "RGBA",
                      content := .amRender (renderOffsets s) }
  { s with
      lat1 := makeLinear s.lat1
      lat2 := makeLinear s.lat2
      amMap := some tile
      mapsDir := diskSave s.mapsDir (amFileName s.area_id) tile }

/-- An `AreaMap` configured with the continental-US box of spec §8. -/
def amUS : AMState :=
  { lat1 := 49, lon1 := -125, lat2 := 24, lon2 := -66,
    area_id := some "US", amMap := none, mapsDir := [] }

end

/-- C5 amended: `MapManager.create_map`'s projection is a pure function of the
bounding box — two states with the same `coordinates` give the same four
offsets, and nothing else of the state matters — while `AreaMap.render`
destructively replaces the stored `lat1`/`lat2` with their linearized values
(longitudes untouched), the hidden-state mutation that makes its offsets
differ across repeated calls on the same instance. -/
theorem projection_purity :
    (∀ s s' : MMState, s.coordinates = s'.coordinates →
      createMapOffsets s = createMapOffsets s') ∧
    (∀ a : AMState, (render a).lat1 = makeLinear a.lat1 ∧
      (render a).lat2 = makeLinear a.lat2 ∧
      (render a).lon1 = a.lon1 ∧ (render a).lon2 = a.lon2 ∧
      (render a).amMap = some { width := 900, height := 900, mode := "RGBA",
                                content := .amRender (renderOffsets a) }) := by
  constructor
  · intro s s' hc
    unfold createMapOffsets
    rw [hc]
  · intro a
    exact ⟨rfl, rfl, rfl, rfl, rfl⟩

/-- Witness for the amended C5: two configured managers sharing a bounding box
but differing in the memory tile project to the same offsets. -/
theorem projection_purity_witness :
    createMapOffsets mmReady = createMapOffsets mmCold :=
  projection_purity.1 mmReady mmCold rfl

/-! Numeric estimates establishing the C5 counterexample: the first render of
the US box has `int(y1)` below 3003, and a second render on the instance the
first one mutated has `int(y1)` at least 11000. -/

open Real

theorem den_pos : (0 : ℝ) < LAT_MAX - REF_LAT := by
  unfold LAT_MAX REF_LAT
  norm_num

theorem tan49_gt_one : 1 < Real.tan (49 * π / 180) := by
  have hπ := Real.pi_pos
  have h1 : Real.tan (π / 4) < Real.tan (49 * π / 180) := by
    apply Real.tan_lt_tan_of_nonneg_of_lt_pi_div_two
    · positivity
    · linarith
    · linarith
  rwa [Real.tan_pi_div_four] at h1

theorem tan49_lt_two : Real.tan (49 * π / 180) < 2 := by
  have hπ := Real.pi_pos
  have hcos : Real.cos (π / 3) < Real.cos (49 * π / 180) := by
    apply Real.cos_lt_cos_of_nonneg_of_le_pi
    · positivity
    · linarith
    · linarith
  rw [Real.cos_pi_div_three] at hcos
  have hcpos : 0 < Real.cos (49 * π / 180) := lt_trans (by norm_num) hcos
  rw [Real.tan_eq_sin_div_cos, div_lt_iff₀ hcpos]
  have hsin : Real.sin (49 * π / 180) ≤ 1 := Real.sin_le_one _
  linarith

theorem exp08_lt : Real.exp 0.8 < 2.3 := by
  have h5 : Real.exp 0.8 ^ (5 : ℕ) = Real.exp 1 ^ (4 : ℕ) := by
    rw [← Real.exp_nat_mul, ← Real.exp_nat_mul]
    norm_num
  have h4 : Real.exp 1 ^ (4 : ℕ) < 2.7182818286 ^ (4 : ℕ) :=
    pow_lt_pow_left₀ Real.exp_one_lt_d9 (le_of_lt (Real.exp_pos 1)) (by norm_num)
  have h6 : Real.exp 0.8 ^ (5 : ℕ) < 2.3 ^ (5 : ℕ) := by
    rw [h5]
    calc Real.exp 1 ^ (4 : ℕ) < 2.7182818286 ^ (4 : ℕ) := h4
      _ < 2.3 ^ (5 : ℕ) := by norm_num
  exact lt_of_pow_lt_pow_left₀ 5 (by norm_num) h6

theorem exp15_gt : (4.43 : ℝ) < Real.exp 1.5 := by
  have h2 : Real.exp 1.5 ^ (2 : ℕ) = Real.exp 1 ^ (3 : ℕ) := by
    rw [← Real.exp_nat_mul, ← Real.exp_nat_mul]
    norm_num
  have h3 : (2.7182818283 : ℝ) ^ (3 : ℕ) < Real.exp 1 ^ (3 : ℕ) :=
    pow_lt_pow_left₀ Real.exp_one_gt_d9 (by norm_num) (by norm_num)
  have h6 : (4.43 : ℝ) ^ (2 : ℕ) < Real.exp 1.5 ^ (2 : ℕ) := by
    rw [h2]
    calc (4.43 : ℝ) ^ (2 : ℕ) < 2.7182818283 ^ (3 : ℕ) := by norm_num
      _ < Real.exp 1 ^ (3 : ℕ) := h3
  exact lt_of_pow_lt_pow_left₀ 2 (le_of_lt (Real.exp_pos 1.5)) h6

theorem sinh0792_lt_one : Real.sinh 0.792 < 1 := by
  rw [Real.sinh_eq]
  have h1 : Real.exp 0.792 < 2.3 :=
    lt_trans (Real.exp_lt_exp.mpr (by norm_num)) exp08_lt
  have h2 : (1 : ℝ) / 2.3 < Real.exp (-0.792) := by
    rw [Real.exp_neg, ← one_div]
    exact one_div_lt_one_div_of_lt (Real.exp_pos 0.792) h1
  linarith

theorem sinh15_gt_two : (2 : ℝ) < Real.sinh 1.5 := by
  rw [Real.sinh_eq]
  have h1 : (4.43 : ℝ) < Real.exp 1.5 := exp15_gt
  have h2 : Real.exp (-1.5) < 1 / 4.43 := by
    rw [Real.exp_neg, ← one_div]
    exact one_div_lt_one_div_of_lt (by norm_num) h1
  linarith

theorem arsinh_tan49_bounds :
    0.792 < Real.arsinh (Real.tan (49 * π / 180)) ∧
      Real.arsinh (Real.tan (49 * π / 180)) < 1.5 := by
  constructor
  · have h := Real.arsinh_lt_arsinh.mpr (lt_trans sinh0792_lt_one tan49_gt_one)
    rwa [Real.arsinh_sinh] at h
  · have h := Real.arsinh_lt_arsinh.mpr (lt_trans tan49_lt_two sinh15_gt_two)
    rwa [Real.arsinh_sinh] at h

theorem makeLinear49_bounds :
    -0.43 < makeLinear 49 ∧ makeLinear 49 < 0.288 := by
  obtain ⟨h1, h2⟩ := arsinh_tan49_bounds
  unfold makeLinear LAT_MAX
  constructor <;> linarith

theorem arsinh_le_self_of_nonneg (y : ℝ) (hy : 0 ≤ y) : Real.arsinh y ≤ y := by
  rcases eq_or_lt_of_le hy with he | hl
  · rw [← he, Real.arsinh_zero]
  · have h := Real.arsinh_lt_arsinh.mpr (Real.self_lt_sinh_iff.mpr hl)
    rw [Real.arsinh_sinh] at h
    exact le_of_lt h

theorem tan_small_bounds (t : ℝ) (ht0 : 0 ≤ t) (ht1 : t ≤ 0.0076) :
    0 ≤ Real.tan t ∧ Real.tan t ≤ 0.011 := by
  have hpi : (3.14 : ℝ) < π := Real.pi_gt_d2
  have hcos : (0.99 : ℝ) ≤ Real.cos t := by
    have h := Real.one_sub_sq_div_two_le_cos (x := t)
    nlinarith
  have hcpos : (0 : ℝ) < Real.cos t := lt_of_lt_of_le (by norm_num) hcos
  constructor
  · exact Real.tan_nonneg_of_nonneg_of_le_pi_div_two ht0 (by linarith)
  · have hsin : Real.sin t ≤ t := by
      rcases eq_or_lt_of_le ht0 with he | hl
      · rw [← he]; simp
      · exact le_of_lt (Real.sin_lt hl)
    rw [Real.tan_eq_sin_div_cos, div_le_iff₀ hcpos]
    nlinarith

theorem arsinh_tan_small (x : ℝ) (hx : |x| ≤ 0.0076) :
    |Real.arsinh (Real.tan x)| ≤ 0.011 := by
  rcases le_or_lt 0 x with hx0 | hx0
  · have hx1 : x ≤ 0.0076 := le_trans (le_abs_self x) hx
    obtain ⟨htan0, htan⟩ := tan_small_bounds x hx0 hx1
    have h1 : Real.arsinh (Real.tan x) ≤ 0.011 :=
      le_trans (arsinh_le_self_of_nonneg _ htan0) htan
    have h0 : 0 ≤ Real.arsinh (Real.tan x) := by
      rw [← Real.arsinh_zero]
      exact Real.arsinh_le_arsinh.mpr htan0
    exact abs_le.mpr ⟨by linarith, h1⟩
  · have hx1 : -x ≤ 0.0076 := by
      rw [abs_of_neg hx0] at hx
      exact hx
    obtain ⟨htan0, htan⟩ := tan_small_bounds (-x) (by linarith) hx1
    rw [Real.tan_neg] at htan0 htan
    have h1 : Real.arsinh (-Real.tan x) ≤ 0.011 :=
      le_trans (arsinh_le_self_of_nonneg _ htan0) htan
    have h0 : 0 ≤ Real.arsinh (-Real.tan x) := by
      rw [← Real.arsinh_zero]
      exact Real.arsinh_le_arsinh.mpr htan0
    rw [Real.arsinh_neg] at h1 h0
    exact abs_le.mpr ⟨by linarith, by linarith⟩

/-- C5 counterexample: on the very `AreaMap` instance holding the
continental-US box `(lat_top=49, lon_left=-125, lat_bottom=24,
lon_right=-66)`, the offsets of a first `render` and of a second `render`
(run on the state the first one left behind) differ: `render` overwrote
`self.lat1`/`self.lat2` with their linearized values, so the second call
linearizes them again — its `int(y1)` is at least 11000 while the first
call's is below 3003.  Repeated tile computation on the same instance does
not yield the same four integer offsets. -/
theorem render_repeat_offsets_differ_cex :
    renderOffsets amUS ≠ renderOffsets (render amUS) := by
  intro hEq
  have hy : pyInt (yCoord (makeLinear (49 : ℝ))) =
      pyInt (yCoord (makeLinear (makeLinear (49 : ℝ)))) :=
    congrArg (fun q : ℤ × ℤ × ℤ × ℤ => q.2.1) hEq
  have hden : (0 : ℝ) < LAT_MAX - REF_LAT := den_pos
  obtain ⟨hL1, hL2⟩ := makeLinear49_bounds
  -- first call: y1 < 3003, so int(y1) < 3003
  have hyf : yCoord (makeLinear 49) < 3003 := by
    unfold yCoord
    rw [div_lt_iff₀ hden]
    unfold LAT_MAX REF_LAT
    linarith
  have hpyf : pyInt (yCoord (makeLinear 49)) < 3003 := by
    unfold pyInt
    split
    · exact Int.floor_lt.mpr (by push_cast; linarith)
    · have hle : yCoord (makeLinear 49) ≤ 0 := le_of_lt (not_le.mp (by assumption))
      have hc : ⌈yCoord (makeLinear 49)⌉ ≤ (0 : ℤ) :=
        Int.ceil_le.mpr (by push_cast; linarith)
      exact lt_of_le_of_lt hc (by norm_num)
  -- second call: the argument of the new linearization is tiny
  have hxsmall : |makeLinear 49 * π / 180| ≤ 0.0076 := by
    have hπu : π < 3.1416 := Real.pi_lt_d4
    have hπl : (0 : ℝ) < π := Real.pi_pos
    have habs : |makeLinear 49| < 0.43 :=
      abs_lt.mpr ⟨hL1, lt_trans hL2 (by norm_num)⟩
    rw [abs_div, abs_mul, abs_of_pos hπl, abs_of_pos (by norm_num : (0:ℝ) < 180)]
    rw [div_le_iff₀ (by norm_num : (0:ℝ) < 180)]
    nlinarith [abs_nonneg (makeLinear 49)]
  have hA2 : |Real.arsinh (Real.tan (makeLinear 49 * π / 180))| ≤ 0.011 :=
    arsinh_tan_small _ hxsmall
  have hys : (11000 : ℝ) ≤ yCoord (makeLinear (makeLinear 49)) := by
    show (11000 : ℝ) ≤
      (LAT_MAX - Real.arsinh (Real.tan (makeLinear 49 * π / 180))) * 3565 /
        (LAT_MAX - REF_LAT)
    rw [le_div_iff₀ hden]
    have h1 : Real.arsinh (Real.tan (makeLinear 49 * π / 180)) ≤ 0.011 :=
      (abs_le.mp hA2).2
    unfold LAT_MAX REF_LAT
    linarith
  have hpys : (11000 : ℤ) ≤ pyInt (yCoord (makeLinear (makeLinear 49))) := by
    unfold pyInt
    rw [if_pos (le_trans (by norm_num) hys)]
    exact Int.le_floor.mpr (by push_cast; linarith)
  rw [hy] at hpyf
  omega

end Hdfm
